import Mathlib

/-!
# Inflight frames: the frame loop of `tasks/inflight_frames/App.cpp`

A shallow embedding of `App::App` and `App::drawFrame`.  The application object is a
record of the members the frame loop reads and writes; one call of `drawFrame` is a
function from the application state and the answers of the external collaborators
(window, swapchain, clock) to the new state together with the ordered list of
everything the call did: the commands recorded into the frame's command buffer and
the host-side actions around them.

`FRAMES_IN_FLIGHT` is declared in `App.hpp`, so it is a parameter `N` throughout.
-/

namespace InflightFrames

/-! ## Data model -/

/-- A `glm::uvec2`: the two unsigned components of a resolution. -/
structure UVec2 where
  x : Nat
  y : Nat
deriving DecidableEq, Repr

/-- The `vk::ImageLayout` values that occur in the frame. -/
inductive ImageLayout where
  | undefined
  | general
  | transferDstOptimal
  | colorAttachmentOptimal
  | shaderReadOnlyOptimal
  | presentSrcKHR
deriving DecidableEq, Repr

/-- The `vk::PipelineStageFlagBits2` values passed to `etna::set_state`. -/
inductive PipelineStage where
  | transfer
  | colorAttachmentOutput
deriving DecidableEq, Repr

/-- The `vk::AccessFlagBits2` values passed to `etna::set_state` (`noAccess` is `{}`). -/
inductive Access where
  | transferWrite
  | noAccess
deriving DecidableEq, Repr

/-- A `vk::PipelineBindPoint`. -/
inductive BindPoint where
  | compute
  | graphics
deriving DecidableEq, Repr

/-- The two pipelines the application owns. -/
inductive Pipeline where
  | computePipeline
  | graphicsPipeline
deriving DecidableEq, Repr

/-- The two samplers the application owns. -/
inductive SamplerId where
  | sampler
  | graphicsSampler
deriving DecidableEq, Repr

/-- The shader programs registered by the constructor: "texture" and "image". -/
inductive Program where
  | texture
  | image
deriving DecidableEq, Repr

/-- The GPU profiling zones opened by `ETNA_PROFILE_GPU`. -/
inductive ProfileZone where
  | renderFrame
  | renderTarget
deriving DecidableEq, Repr

/-- The images a command can name: a swapchain image (by handle), the intermediate
image `bufImage` written by the compute pass, and the static input texture `image`. -/
inductive ImageRef where
  | swapchain (handle : Nat)
  | bufImage
  | image
deriving DecidableEq, Repr

/-- What a descriptor binding refers to: an image with sampler and layout
(`Image::genBinding`) or the uniform buffer `constantBuf[slot]` (`Buffer::genBinding`). -/
inductive Resource where
  | image (img : ImageRef) (s : SamplerId) (layout : ImageLayout)
  | buffer (slot : Nat)
deriving DecidableEq, Repr

/-- An `etna::Binding`: binding number and resource. -/
structure Binding where
  index : Nat
  res : Resource
deriving DecidableEq, Repr

/-- A descriptor set made by `etna::create_descriptor_set` for set 0 of a program. -/
structure DescriptorSet where
  program : Program
  bindings : List Binding
deriving DecidableEq, Repr

/-- The uniform parameters.  `time` is `elapsedTime / 1000.f` in the source; the
embedding keeps the integer millisecond count it is computed from. -/
structure Params where
  size_x : Nat
  size_y : Nat
  timeMs : Int
deriving DecidableEq, Repr

/-- The tuple returned by `vkWindow->acquireNext()`: image, view, available semaphore. -/
structure SwapchainImage where
  backbuffer : Nat
  view : Nat
  availableSem : Nat
deriving DecidableEq, Repr

/-- A command recorded into the frame's command buffer.  `dispatch`,
`bindVertexBuffers` and `bindIndexBuffer` are commands of the command-buffer
interface that a frame could record. -/
inductive Cmd where
  | begin
  | profileBegin (z : ProfileZone)
  | profileEnd (z : ProfileZone)
  | setState (img : ImageRef) (stage : PipelineStage) (access : Access) (layout : ImageLayout)
  | bindPipeline (bp : BindPoint) (p : Pipeline)
  | bindDescriptorSets (bp : BindPoint) (layoutOf : Pipeline) (firstSet : Nat) (set : DescriptorSet)
  | dispatch (gx gy gz : Nat)
  | bindVertexBuffers
  | bindIndexBuffer
  | flushBarriers
  | beginRenderTarget (offset extent : UVec2) (color : List (ImageRef × Nat)) (depth : Option ImageRef)
  | endRenderTarget
  | draw (vertexCount instanceCount firstVertex firstInstance : Nat)
  | readBackProfiling
  | endCmd
deriving DecidableEq, Repr

/-- Everything one call does, in program order: commands recorded into the command
buffer (`record`) and host-side actions. -/
inductive Event where
  | cmdAcquireNext
  | beginFrame
  | windowAcquireNext (r : Option SwapchainImage)
  | record (c : Cmd)
  | sleepMs (ms : Nat)
  | getShaderProgram (p : Program)
  | createDescriptorSet (s : DescriptorSet)
  | setParams (p : Params)
  | writeConstantBuf (slot : Nat) (p : Params)
  | setBufIndex (v : Nat)
  | submit (waitSem : Nat)
  | present (view : Nat) (ok : Bool)
  | endFrame
  | getResolution (r : UVec2)
  | recreateSwapchain (desired : UVec2) (vsync : Bool) (actual : UVec2)
  | verify (ok : Bool)
deriving DecidableEq, Repr

/-- The members of `App` that the frame loop reads or writes. -/
structure App where
  resolution : UVec2
  useVsync : Bool
  bufIndex : Nat
  params : Params
  constantBuf : List (Option Params)
deriving DecidableEq, Repr

/-- The answers of the external collaborators during one `drawFrame` call:
what `vkWindow->acquireNext()` returns, what `vkWindow->present` returns, what
`osWindow->getResolution()` returns, what `vkWindow->recreateSwapchain` returns, and
the millisecond count read from the clock. -/
structure FrameEnv where
  acquired : Option SwapchainImage
  presented : Bool
  windowResolution : UVec2
  recreated : UVec2
  elapsedMs : Int
deriving DecidableEq, Repr

/-- The application state and the events so far while a call is running. -/
structure Frame where
  app : App
  events : List Event
deriving DecidableEq, Repr

/-- The outcome of one `drawFrame` call: the state it leaves, what it did, and whether
the `ETNA_VERIFY` at its end stopped the program instead of returning. -/
structure FrameResult where
  app : App
  events : List Event
  halted : Bool
deriving DecidableEq, Repr

/-! ## Operations -/

/-- Append a host-side action to the running call. -/
def Frame.emit (f : Frame) (ev : Event) : Frame :=
  { f with events := f.events ++ [ev] }

/-- Record a command into the command buffer of the running call. -/
def Frame.cmd (f : Frame) (c : Cmd) : Frame :=
  f.emit (Event.record c)

/-- Modelled from the spec: `ETNA_VERIFY`, a macro of the etna library that is not
under src/.  Section 7 of the spec: an invariant violation is checked defensively and
halts execution.  The result is `true` when the check stops the program, which is
exactly when its condition is false. -/
def ETNA_VERIFY (cond : Bool) : Bool :=
  !cond

/-- Assignment to the member `params` (lines 191-195). -/
def Frame.setParams (f : Frame) (p : Params) : Frame :=
  { app := { f.app with params := p }, events := f.events ++ [Event.setParams p] }

/-- The `map` / `memcpy` / `unmap` of lines 198-200: the current `params` are copied
into `constantBuf[bufIndex]`, with `bufIndex` as it is at this point.  An index
outside the array, undefined in the source, leaves the list as it is. -/
def Frame.writeConstantBuf (f : Frame) : Frame :=
  { app := { f.app with
      constantBuf := f.app.constantBuf.set f.app.bufIndex (some f.app.params) },
    events := f.events ++ [Event.writeConstantBuf f.app.bufIndex f.app.params] }

/-- The assignment `bufIndex = (bufIndex + 1) % FRAMES_IN_FLIGHT` of line 240. -/
def Frame.advanceBufIndex (N : Nat) (f : Frame) : Frame :=
  { app := { f.app with bufIndex := (f.app.bufIndex + 1) % N },
    events := f.events ++ [Event.setBufIndex ((f.app.bufIndex + 1) % N)] }

/-- The descriptor set of lines 170-174, for the slot `bufIndex` has when it is made. -/
def computeDescriptorSet (bufIndex : Nat) : DescriptorSet :=
  ⟨Program.texture,
    [⟨0, Resource.image ImageRef.bufImage SamplerId.sampler ImageLayout.general⟩,
     ⟨1, Resource.buffer bufIndex⟩]⟩

/-- The descriptor set of lines 205-210, for the slot `bufIndex` has when it is made. -/
def graphicsSet (bufIndex : Nat) : DescriptorSet :=
  ⟨Program.image,
    [⟨0, Resource.image ImageRef.bufImage SamplerId.sampler ImageLayout.general⟩,
     ⟨1, Resource.image ImageRef.image SamplerId.graphicsSampler
       ImageLayout.shaderReadOnlyOptimal⟩,
     ⟨2, Resource.buffer bufIndex⟩]⟩

/-- Lines 154-167: begin the command buffer (taken to succeed), open the profiling
zone, sleep, and request the transfer-write state for the backbuffer. -/
def beginRecording (f : Frame) (img : SwapchainImage) : Frame :=
  f |>.cmd Cmd.begin
    |>.cmd (Cmd.profileBegin ProfileZone.renderFrame)
    |>.emit (Event.sleepMs 8)
    |>.cmd (Cmd.setState (ImageRef.swapchain img.backbuffer) PipelineStage.transfer
        Access.transferWrite ImageLayout.transferDstOptimal)

/-- Lines 169-185: the compute program, its descriptor set, and the two binds. -/
def computePass (f : Frame) : Frame :=
  f |>.emit (Event.getShaderProgram Program.texture)
    |>.emit (Event.createDescriptorSet (computeDescriptorSet f.app.bufIndex))
    |>.cmd (Cmd.bindPipeline BindPoint.compute Pipeline.computePipeline)
    |>.cmd (Cmd.bindDescriptorSets BindPoint.compute Pipeline.computePipeline 0
        (computeDescriptorSet f.app.bufIndex))

/-- Lines 187-202: read the clock, assign `params`, copy them into the uniform
buffer of the current slot, flush barriers. -/
def uploadParams (f : Frame) (elapsedMs : Int) : Frame :=
  f |>.setParams ⟨f.app.resolution.x, f.app.resolution.y, elapsedMs⟩
    |>.writeConstantBuf
    |>.cmd Cmd.flushBarriers

/-- Lines 204-236: the graphics program, its descriptor set, the render target
scope with the two binds and the draw, and the flush after it.  Leaving the scope
runs the destructor of `renderTargets` and then closes the profiling zone. -/
def graphicsPass (f : Frame) (img : SwapchainImage) : Frame :=
  f |>.emit (Event.getShaderProgram Program.image)
    |>.emit (Event.createDescriptorSet (graphicsSet f.app.bufIndex))
    |>.cmd (Cmd.profileBegin ProfileZone.renderTarget)
    |>.cmd (Cmd.beginRenderTarget ⟨0, 0⟩ ⟨f.app.resolution.x, f.app.resolution.y⟩
        [(ImageRef.swapchain img.backbuffer, img.view)] none)
    |>.cmd (Cmd.bindPipeline BindPoint.graphics Pipeline.graphicsPipeline)
    |>.cmd (Cmd.bindDescriptorSets BindPoint.graphics Pipeline.graphicsPipeline 0
        (graphicsSet f.app.bufIndex))
    |>.cmd (Cmd.draw 3 1 0 0)
    |>.cmd Cmd.endRenderTarget
    |>.cmd (Cmd.profileEnd ProfileZone.renderTarget)
    |>.cmd Cmd.flushBarriers

/-- Lines 239-253: advance `bufIndex`, request the present state for the
backbuffer, flush, read back the profiling data and close the outer zone. -/
def finishRecording (N : Nat) (f : Frame) (img : SwapchainImage) : Frame :=
  f |>.advanceBufIndex N
    |>.cmd (Cmd.setState (ImageRef.swapchain img.backbuffer)
        PipelineStage.colorAttachmentOutput Access.noAccess ImageLayout.presentSrcKHR)
    |>.cmd Cmd.flushBarriers
    |>.cmd Cmd.readBackProfiling
    |>.cmd (Cmd.profileEnd ProfileZone.renderFrame)

/-- The body of `if (nextSwapchainImage)` in `App::drawFrame` from
`currentCmdBuf.begin` up to `ETNA_READ_BACK_GPU_PROFILING` (lines 154-253), in
source order.  Every part reads the members of the application as they are when
it runs. -/
def recordFrame (N : Nat) (f0 : Frame) (img : SwapchainImage) (elapsedMs : Int) : Frame :=
  finishRecording N (graphicsPass (uploadParams (computePass (beginRecording f0 img)) elapsedMs) img) img

/-- The first part of `App::drawFrame` (lines 143-262): take a command buffer,
try to acquire a swapchain image and, when there is one, record, end the command
buffer (taken to succeed), submit and present.  The second component is
`nextSwapchainImage` as it is after the block. -/
def renderPart (N : Nat) (a : App) (e : FrameEnv) : Frame × Option SwapchainImage :=
  let f : Frame := ⟨a, []⟩
  let f := f.emit Event.cmdAcquireNext
  let f := f.emit Event.beginFrame
  let f := f.emit (Event.windowAcquireNext e.acquired)
  match e.acquired with
  | some img =>
    let f := recordFrame N f img e.elapsedMs
    let f := f.cmd Cmd.endCmd
    let f := f.emit (Event.submit img.availableSem)
    let f := f.emit (Event.present img.view e.presented)
    (f, if e.presented then some img else none)
  | none => (f, none)

/-- The whole of `App::drawFrame`. -/
def drawFrame (N : Nat) (a : App) (e : FrameEnv) : FrameResult :=
  let (f, nextSwapchainImage) := renderPart N a e
  let f := f.emit Event.endFrame
  match nextSwapchainImage with
  | some _ => ⟨f.app, f.events, false⟩
  | none =>
    let f := f.emit (Event.getResolution e.windowResolution)
    if e.windowResolution ≠ ⟨0, 0⟩ then
      let f := f.emit (Event.recreateSwapchain f.app.resolution f.app.useVsync e.recreated)
      let ok : Bool := decide (f.app.resolution = e.recreated)
      let f := f.emit (Event.verify ok)
      ⟨f.app, f.events, ETNA_VERIFY ok⟩
    else
      ⟨f.app, f.events, false⟩

/-- The answers of the external collaborators to the constructor: the resolution
`vkWindow->recreateSwapchain` returns and whether `stbi_load` produced the texture. -/
structure CtorEnv where
  recreated : UVec2
  textureLoaded : Bool
deriving DecidableEq, Repr

/-- The ways the constructor fails. -/
inductive CtorError where
  | textureLoadFailed
deriving DecidableEq, Repr

/-- The constructor `App::App` (lines 4-122), as far as the members of the frame loop
go: the members start at 1280 x 720 without vsync, the swapchain is created for that
request and its answer is stored in `resolution`, a failed texture load throws, and
`FRAMES_IN_FLIGHT` uniform buffers are created.  The first component of the result
is the request passed to `recreateSwapchain`.  The initial values of `bufIndex` and
`params` come from `App.hpp` and are parameters. -/
def construct (N : Nat) (bufIndex0 : Nat) (params0 : Params) (env : CtorEnv) :
    Except CtorError ((UVec2 × Bool) × App) :=
  let resolution : UVec2 := ⟨1280, 720⟩
  let useVsync := false
  let request := (resolution, useVsync)
  let resolution := env.recreated
  if env.textureLoaded then
    Except.ok (request, ⟨resolution, useVsync, bufIndex0, params0, List.replicate N none⟩)
  else
    Except.error CtorError.textureLoadFailed

/-! ## Reading the events of a call -/

/-- The commands recorded into the command buffer, in order. -/
def commands (evs : List Event) : List Cmd :=
  evs.filterMap fun ev =>
    match ev with
    | Event.record c => some c
    | _ => none

/-- The slots of `constantBuf` written by the host, in order. -/
def writtenSlots (evs : List Event) : List Nat :=
  evs.filterMap fun ev =>
    match ev with
    | Event.writeConstantBuf slot _ => some slot
    | _ => none

/-- How many times `commandManager->submit` is called. -/
def submitCount (evs : List Event) : Nat :=
  evs.countP fun ev =>
    match ev with
    | Event.submit _ => true
    | _ => false

/-- How many times `vkWindow->present` is called. -/
def presentCount (evs : List Event) : Nat :=
  evs.countP fun ev =>
    match ev with
    | Event.present _ _ => true
    | _ => false

/-- The desired properties of every `recreateSwapchain` call, in order. -/
def recreateCalls (evs : List Event) : List (UVec2 × Bool) :=
  evs.filterMap fun ev =>
    match ev with
    | Event.recreateSwapchain desired vsync _ => some (desired, vsync)
    | _ => none

/-- The uniform-buffer slots a descriptor set refers to. -/
def DescriptorSet.bufferSlots (s : DescriptorSet) : List Nat :=
  s.bindings.filterMap fun b =>
    match b.res with
    | Resource.buffer slot => some slot
    | _ => none

/-- The uniform-buffer slots referenced by the descriptor sets bound in a command
sequence: what the GPU reads when it executes the sequence. -/
def referencedSlots : List Cmd → List Nat
  | [] => []
  | Cmd.bindDescriptorSets _ _ _ s :: cs => s.bufferSlots ++ referencedSlots cs
  | _ :: cs => referencedSlots cs

/-- Whether a command is a compute dispatch. -/
def Cmd.isDispatch : Cmd → Bool
  | Cmd.dispatch _ _ _ => true
  | _ => false

/-- Modelled from the spec: the layout that an `etna::RenderTargetState`, a class of
the etna library that is not under src/, requests for each of its color attachments.
Section 8 of the spec names it color-attachment. -/
def renderTargetColorLayout : ImageLayout :=
  ImageLayout.colorAttachmentOptimal

/-- The layout states requested for image `img` by a command sequence, in order.
`etna::set_state` requests the layout it is given; a render target scope requests
`renderTargetColorLayout` for each of its color attachments. -/
def layoutRequests (img : ImageRef) : List Cmd → List ImageLayout
  | [] => []
  | Cmd.setState i _ _ l :: cs =>
    if i = img then l :: layoutRequests img cs else layoutRequests img cs
  | Cmd.beginRenderTarget _ _ color _ :: cs =>
    if img ∈ color.map Prod.fst then renderTargetColorLayout :: layoutRequests img cs
    else layoutRequests img cs
  | _ :: cs => layoutRequests img cs

/-- The command buffers handed to `commandManager->submit`, each as the sequence
recorded into it: `acquireNext` hands out an empty buffer, `record` appends to it,
`submit` moves it out. -/
def submittedBuffers (acc : List Cmd) : List Event → List (List Cmd)
  | [] => []
  | Event.cmdAcquireNext :: evs => submittedBuffers [] evs
  | Event.record c :: evs => submittedBuffers (acc ++ [c]) evs
  | Event.submit _ :: evs => acc :: submittedBuffers [] evs
  | _ :: evs => submittedBuffers acc evs

/-- What is bound while a command sequence is replayed. -/
structure Bound where
  computePipeline : Option Pipeline
  computeSet : Option DescriptorSet
  graphicsPipeline : Option Pipeline
  graphicsSet : Option DescriptorSet
  vertexBuffers : Bool
  indexBuffer : Bool
  renderTarget : Option (List (ImageRef × Nat))
  presentRequested : List ImageRef
deriving DecidableEq, Repr

/-- Nothing bound: the state of a fresh command buffer. -/
def Bound.init : Bound :=
  ⟨none, none, none, none, false, false, none, []⟩

/-- The effect of one command on what is bound. -/
def Bound.step (b : Bound) : Cmd → Bound
  | Cmd.bindPipeline BindPoint.compute p => { b with computePipeline := some p }
  | Cmd.bindPipeline BindPoint.graphics p => { b with graphicsPipeline := some p }
  | Cmd.bindDescriptorSets BindPoint.compute _ _ s => { b with computeSet := some s }
  | Cmd.bindDescriptorSets BindPoint.graphics _ _ s => { b with graphicsSet := some s }
  | Cmd.bindVertexBuffers => { b with vertexBuffers := true }
  | Cmd.bindIndexBuffer => { b with indexBuffer := true }
  | Cmd.beginRenderTarget _ _ color _ => { b with renderTarget := some color }
  | Cmd.endRenderTarget => { b with renderTarget := none }
  | Cmd.setState img _ _ ImageLayout.presentSrcKHR =>
    { b with presentRequested := b.presentRequested ++ [img] }
  | _ => b

/-- Every draw command of a sequence together with what is bound when it is recorded. -/
def drawCalls (b : Bound) : List Cmd → List (Bound × Cmd)
  | [] => []
  | Cmd.draw v i fv fi :: cs => (b, Cmd.draw v i fv fi) :: drawCalls b cs
  | c :: cs => drawCalls (b.step c) cs

/-- How a frame uses a uniform-buffer slot on the host side. -/
inductive BufferUse where
  | binding (p : Program) (index : Nat) (slot : Nat)
  | write (slot : Nat)
deriving DecidableEq, Repr

/-- The uses of uniform-buffer slots in a sequence of events, in order: each buffer
binding of each descriptor set created, and each host write. -/
def bufferUses : List Event → List BufferUse
  | [] => []
  | Event.createDescriptorSet s :: evs =>
    (s.bindings.filterMap fun b =>
      match b.res with
      | Resource.buffer slot => some (BufferUse.binding s.program b.index slot)
      | _ => none) ++ bufferUses evs
  | Event.writeConstantBuf slot _ :: evs => BufferUse.write slot :: bufferUses evs
  | _ :: evs => bufferUses evs

/-- Whether an event is the assignment to `bufIndex`. -/
def Event.isSetBufIndex : Event → Bool
  | Event.setBufIndex _ => true
  | _ => false

/-! ## Runs of the frame loop -/

/-- The application state before invocation `i` of `drawFrame` in a run that starts
from `a` and in which invocation `k` gets the answers `env k`. -/
def appAt (N : Nat) (a : App) (env : Nat → FrameEnv) : Nat → App
  | 0 => a
  | i + 1 => (drawFrame N (appAt N a env i) (env i)).app

/-- Invocation `i` of the run. -/
def frameAt (N : Nat) (a : App) (env : Nat → FrameEnv) (i : Nat) : FrameResult :=
  drawFrame N (appAt N a env i) (env i)

/-- Whether invocation `i` takes place: no earlier invocation was stopped by its
`ETNA_VERIFY`. -/
def executed (N : Nat) (a : App) (env : Nat → FrameEnv) : Nat → Bool
  | 0 => true
  | i + 1 => executed N a env i && !(frameAt N a env i).halted

/-- The number of command buffers submitted by the invocations before `i`.  When
invocation `i` submits, this is the position of its submission in submission order. -/
def submissionsBefore (N : Nat) (a : App) (env : Nat → FrameEnv) : Nat → Nat
  | 0 => 0
  | i + 1 => submissionsBefore N a env i + submitCount (frameAt N a env i).events

/-! ## Concrete inputs -/

/-- An application state used in the concrete examples: 1280 x 720, no vsync,
slot 0 next, two uniform buffers not yet written. -/
def sampleApp : App :=
  ⟨⟨1280, 720⟩, false, 0, ⟨0, 0, 0⟩, [none, none]⟩

/-- A swapchain image used in the concrete examples. -/
def sampleImage : SwapchainImage :=
  ⟨7, 8, 9⟩

/-- A run in which the window is minimised during every third invocation (1, 4, 7,
...) and every other invocation acquires an image and presents it. -/
def sampleRun (i : Nat) : FrameEnv :=
  if i % 3 = 1 then ⟨none, false, ⟨0, 0⟩, ⟨0, 0⟩, 16 * i⟩
  else ⟨some sampleImage, true, ⟨1280, 720⟩, ⟨1280, 720⟩, 16 * i⟩

/-- A GPU that lags one invocation behind on `sampleRun` with two frames in flight:
when invocation `i` gets its command buffer, the GPU has finished exactly the
submissions made before invocation `i - 1`. -/
def sampleDone (i : Nat) : Nat :=
  submissionsBefore 2 sampleApp sampleRun (i - 1)

/-- A run in which every invocation acquires an image and presents it. -/
def steadyRun (i : Nat) : FrameEnv :=
  ⟨some ⟨i % 3, i % 3, i⟩, true, ⟨1280, 720⟩, ⟨1280, 720⟩, 16 * i⟩

/-! ## The events of one call -/

/-- The first part of a call that acquires an image, spelled out. -/
theorem renderPart_acquired (N : Nat) (a : App) (img : SwapchainImage) (p : Bool)
    (wr rc : UVec2) (t : Int) :
    renderPart N a ⟨some img, p, wr, rc, t⟩ =
      (⟨{ a with
            bufIndex := (a.bufIndex + 1) % N,
            params := ⟨a.resolution.x, a.resolution.y, t⟩,
            constantBuf := a.constantBuf.set a.bufIndex (some ⟨a.resolution.x, a.resolution.y, t⟩) },
          [Event.cmdAcquireNext, Event.beginFrame, Event.windowAcquireNext (some img),
           Event.record Cmd.begin,
           Event.record (Cmd.profileBegin ProfileZone.renderFrame),
           Event.sleepMs 8,
           Event.record (Cmd.setState (ImageRef.swapchain img.backbuffer) PipelineStage.transfer
             Access.transferWrite ImageLayout.transferDstOptimal),
           Event.getShaderProgram Program.texture,
           Event.createDescriptorSet (computeDescriptorSet a.bufIndex),
           Event.record (Cmd.bindPipeline BindPoint.compute Pipeline.computePipeline),
           Event.record (Cmd.bindDescriptorSets BindPoint.compute Pipeline.computePipeline 0
             (computeDescriptorSet a.bufIndex)),
           Event.setParams ⟨a.resolution.x, a.resolution.y, t⟩,
           Event.writeConstantBuf a.bufIndex ⟨a.resolution.x, a.resolution.y, t⟩,
           Event.record Cmd.flushBarriers,
           Event.getShaderProgram Program.image,
           Event.createDescriptorSet (graphicsSet a.bufIndex),
           Event.record (Cmd.profileBegin ProfileZone.renderTarget),
           Event.record (Cmd.beginRenderTarget ⟨0, 0⟩ ⟨a.resolution.x, a.resolution.y⟩
             [(ImageRef.swapchain img.backbuffer, img.view)] none),
           Event.record (Cmd.bindPipeline BindPoint.graphics Pipeline.graphicsPipeline),
           Event.record (Cmd.bindDescriptorSets BindPoint.graphics Pipeline.graphicsPipeline 0
             (graphicsSet a.bufIndex)),
           Event.record (Cmd.draw 3 1 0 0),
           Event.record Cmd.endRenderTarget,
           Event.record (Cmd.profileEnd ProfileZone.renderTarget),
           Event.record Cmd.flushBarriers,
           Event.setBufIndex ((a.bufIndex + 1) % N),
           Event.record (Cmd.setState (ImageRef.swapchain img.backbuffer)
             PipelineStage.colorAttachmentOutput Access.noAccess ImageLayout.presentSrcKHR),
           Event.record Cmd.flushBarriers,
           Event.record Cmd.readBackProfiling,
           Event.record (Cmd.profileEnd ProfileZone.renderFrame),
           Event.record Cmd.endCmd,
           Event.submit img.availableSem,
           Event.present img.view p]⟩,
        if p then some img else none) := by
  simp [renderPart, recordFrame, finishRecording, graphicsPass, uploadParams, computePass,
    beginRecording, Frame.emit, Frame.cmd, Frame.setParams, Frame.writeConstantBuf,
    Frame.advanceBufIndex]

/-- The first part of a call that acquires no image, spelled out. -/
theorem renderPart_skipped (N : Nat) (a : App) (p : Bool) (wr rc : UVec2) (t : Int) :
    renderPart N a ⟨none, p, wr, rc, t⟩ =
      (⟨a, [Event.cmdAcquireNext, Event.beginFrame, Event.windowAcquireNext none]⟩, none) := by
  rfl

/-- The slot index after a call. -/
theorem frame_bufIndex (N : Nat) (a : App) (e : FrameEnv) :
    (drawFrame N a e).app.bufIndex =
      if e.acquired.isSome then (a.bufIndex + 1) % N else a.bufIndex := by
  rcases e with ⟨_ | img, p, wr, rc, t⟩
  · simp only [drawFrame, renderPart_skipped]
    split <;> rfl
  · simp only [drawFrame, renderPart_acquired]
    cases p
    · simp only [Bool.false_eq_true, if_false]
      split <;> rfl
    · rfl

/-- A call submits one command buffer when it acquired an image and none otherwise. -/
theorem frame_submitCount (N : Nat) (a : App) (e : FrameEnv) :
    submitCount (drawFrame N a e).events = if e.acquired.isSome then 1 else 0 := by
  rcases e with ⟨_ | img, p, wr, rc, t⟩
  · simp only [drawFrame, renderPart_skipped]
    split <;> rfl
  · simp only [drawFrame, renderPart_acquired]
    cases p
    · simp only [Bool.false_eq_true, if_false]
      split <;> rfl
    · rfl

/-- A call writes the slot `bufIndex` had at its start when it acquired an image
and writes no slot otherwise. -/
theorem frame_writtenSlots (N : Nat) (a : App) (e : FrameEnv) :
    writtenSlots (drawFrame N a e).events = if e.acquired.isSome then [a.bufIndex] else [] := by
  rcases e with ⟨_ | img, p, wr, rc, t⟩
  · simp only [drawFrame, renderPart_skipped]
    split <;> rfl
  · simp only [drawFrame, renderPart_acquired]
    cases p
    · simp only [Bool.false_eq_true, if_false]
      split <;> rfl
    · rfl

/-- The command buffers a call submits: the recorded commands when it acquired an
image, none otherwise. -/
theorem frame_submittedBuffers (N : Nat) (a : App) (e : FrameEnv) :
    submittedBuffers [] (drawFrame N a e).events =
      if e.acquired.isSome then [commands (drawFrame N a e).events] else [] := by
  rcases e with ⟨_ | img, p, wr, rc, t⟩
  · simp only [drawFrame, renderPart_skipped]
    split <;> rfl
  · simp only [drawFrame, renderPart_acquired]
    cases p
    · simp only [Bool.false_eq_true, if_false]
      split <;> simp [Frame.emit, submittedBuffers, commands]
    · simp [Frame.emit, submittedBuffers, commands]

/-- The slots referenced by the descriptor sets a call binds. -/
theorem frame_referencedSlots (N : Nat) (a : App) (e : FrameEnv) :
    referencedSlots (commands (drawFrame N a e).events) =
      if e.acquired.isSome then [a.bufIndex, a.bufIndex] else [] := by
  rcases e with ⟨_ | img, p, wr, rc, t⟩
  · simp only [drawFrame, renderPart_skipped]
    split <;> rfl
  · simp only [drawFrame, renderPart_acquired]
    cases p
    · simp only [Bool.false_eq_true, if_false]
      split <;> rfl
    · rfl

/-- A call is stopped only when it produced no valid image, the window is not
0 x 0 and the recreated resolution differs from the stored one. -/
theorem frame_halted (N : Nat) (a : App) (e : FrameEnv) :
    (drawFrame N a e).halted =
      (decide ((e.acquired = none ∨ e.presented = false) ∧ e.windowResolution ≠ ⟨0, 0⟩) &&
        !decide (a.resolution = e.recreated)) := by
  rcases e with ⟨_ | img, p, wr, rc, t⟩
  · simp only [drawFrame, renderPart_skipped]
    split
    · rename_i h
      simp [Frame.emit, ETNA_VERIFY, h]
    · rename_i h
      simp [h]
  · simp only [drawFrame, renderPart_acquired]
    cases p
    · simp only [Bool.false_eq_true, if_false]
      split
      · rename_i h
        simp [Frame.emit, ETNA_VERIFY, h]
      · rename_i h
        simp [h]
    · simp

/-! ## Claims about one call -/

/-- C1, as the code behaves: no call of `drawFrame` records a compute dispatch.  The
command sequence of a frame contains no `dispatch` command at all, although the
compute pipeline and its descriptor set are bound. -/
theorem drawFrame_records_no_dispatch (N : Nat) (a : App) (e : FrameEnv) :
    (commands (drawFrame N a e).events).filter Cmd.isDispatch = [] := by
  rcases e with ⟨_ | img, p, wr, rc, t⟩
  · simp only [drawFrame, renderPart_skipped]
    split <;> rfl
  · simp only [drawFrame, renderPart_acquired]
    cases p
    · simp only [Bool.false_eq_true, if_false]
      split <;> rfl
    · rfl

/-- C3 fails as stated: from slot 0 with two frames in flight, a call that acquires
no image leaves `bufIndex` at 0, not at 1. -/
theorem bufIndex_not_advanced_when_skipped :
    (drawFrame 2 sampleApp ⟨none, true, ⟨0, 0⟩, ⟨0, 0⟩, 0⟩).app.bufIndex = 0 ∧
      (drawFrame 2 sampleApp ⟨none, true, ⟨0, 0⟩, ⟨0, 0⟩, 0⟩).app.bufIndex
        ≠ (sampleApp.bufIndex + 1) % 2 := by
  decide

/-- C3, amended: a call of `drawFrame` advances `bufIndex` by one modulo
`FRAMES_IN_FLIGHT` when `vkWindow->acquireNext()` returned an image and leaves it
unchanged when the frame was skipped. -/
theorem drawFrame_bufIndex (N : Nat) (a : App) (e : FrameEnv) :
    (drawFrame N a e).app.bufIndex =
      if e.acquired.isSome then (a.bufIndex + 1) % N else a.bufIndex :=
  frame_bufIndex N a e

/-- C5 fails as stated: with 1280 x 720 stored, a skipped frame in a window of
800 x 600 recreates the swapchain, gets 800 x 600 back, and is stopped by the
`ETNA_VERIFY` that compares the two; the stored resolution is still 1280 x 720. -/
theorem drawFrame_asserts_recreated_resolution :
    recreateCalls (drawFrame 2 sampleApp ⟨none, true, ⟨800, 600⟩, ⟨800, 600⟩, 0⟩).events
        = [(⟨1280, 720⟩, false)] ∧
      (drawFrame 2 sampleApp ⟨none, true, ⟨800, 600⟩, ⟨800, 600⟩, 0⟩).halted = true ∧
      (drawFrame 2 sampleApp ⟨none, true, ⟨800, 600⟩, ⟨800, 600⟩, 0⟩).app.resolution
        ≠ ⟨800, 600⟩ := by
  decide

/-- C5, amended: the constructor adopts whatever resolution `recreateSwapchain`
returns for its 1280 x 720 request.  `drawFrame` instead asserts that the returned
resolution equals the stored one: it never changes the stored resolution, and it is
stopped exactly when it recreated the swapchain and the returned resolution differs
from the stored one, so when it returns after a recreation the stored resolution
equals the returned one. -/
theorem recreated_resolution_handling (N : Nat) (bufIndex0 : Nat) (params0 : Params)
    (rc : UVec2) (a : App) (e : FrameEnv) :
    (construct N bufIndex0 params0 ⟨rc, true⟩).map (fun r => (r.1, r.2.resolution))
        = Except.ok ((⟨1280, 720⟩, false), rc) ∧
      (drawFrame N a e).app.resolution = a.resolution ∧
      ((drawFrame N a e).halted = true ↔
        (recreateCalls (drawFrame N a e).events ≠ [] ∧ a.resolution ≠ e.recreated)) := by
  refine ⟨rfl, ?_, ?_⟩
  · rcases e with ⟨_ | img, p, wr, rc2, t⟩
    · simp only [drawFrame, renderPart_skipped]
      split <;> rfl
    · simp only [drawFrame, renderPart_acquired]
      cases p
      · simp only [Bool.false_eq_true, if_false]
        split <;> rfl
      · rfl
  · rcases e with ⟨_ | img, p, wr, rc2, t⟩
    · simp only [drawFrame, renderPart_skipped]
      split
      · simp [Frame.emit, recreateCalls, ETNA_VERIFY]
      · simp [Frame.emit, recreateCalls]
    · simp only [drawFrame, renderPart_acquired]
      cases p
      · simp only [Bool.false_eq_true, if_false]
        split
        · simp [Frame.emit, recreateCalls, ETNA_VERIFY]
        · simp [Frame.emit, recreateCalls]
      · simp [Frame.emit, recreateCalls]

/-- C6 fails as stated: a skipped frame in a window of resolution 0 x 5, whose area
is zero, still calls `recreateSwapchain` once. -/
theorem recreate_called_at_zero_area :
    recreateCalls (drawFrame 2 sampleApp ⟨none, true, ⟨0, 5⟩, ⟨1280, 720⟩, 0⟩).events
        = [(sampleApp.resolution, sampleApp.useVsync)] ∧
      ¬ ((⟨0, 5⟩ : UVec2).x * (⟨0, 5⟩ : UVec2).y ≠ 0) := by
  decide

/-- C6, amended: a call of `drawFrame` calls `recreateSwapchain` exactly once, with
the stored resolution and `useVsync`, when no valid image was produced (nothing
acquired, or present returned false) and the window resolution differs from (0, 0);
otherwise it does not call it. -/
theorem drawFrame_recreateCalls (N : Nat) (a : App) (e : FrameEnv) :
    recreateCalls (drawFrame N a e).events =
      if (e.acquired = none ∨ e.presented = false) ∧ e.windowResolution ≠ ⟨0, 0⟩
      then [(a.resolution, a.useVsync)] else [] := by
  rcases e with ⟨_ | img, p, wr, rc, t⟩
  · simp only [drawFrame, renderPart_skipped]
    split
    · rename_i h
      simp [Frame.emit, recreateCalls, h]
    · rename_i h
      simp [Frame.emit, recreateCalls, h]
  · simp only [drawFrame, renderPart_acquired]
    cases p
    · simp only [Bool.false_eq_true, if_false]
      split
      · rename_i h
        simp [Frame.emit, recreateCalls, h]
      · rename_i h
        simp [Frame.emit, recreateCalls, h]
    · simp [Frame.emit, recreateCalls]

/-- C7 fails as stated: with 1280 x 720 stored, a call that acquires no image in a
window of 1920 x 1080 whose recreated swapchain is 1920 x 1080 does not return. -/
theorem skipped_frame_can_halt :
    (⟨none, false, ⟨1920, 1080⟩, ⟨1920, 1080⟩, 16⟩ : FrameEnv).acquired = none ∧
      (drawFrame 2 sampleApp ⟨none, false, ⟨1920, 1080⟩, ⟨1920, 1080⟩, 16⟩).halted = true := by
  decide

/-- C7, amended: a call of `drawFrame` that acquires no image records no command,
submits nothing, attempts no present and leaves `bufIndex`, `params` and every
`constantBuf` slot unchanged; it returns unless the window resolution differs from
(0, 0) and the recreated swapchain has a resolution other than the stored one, in
which case `ETNA_VERIFY` stops it.  A call that acquires an image submits exactly
one command buffer and attempts exactly one present. -/
theorem drawFrame_skip_or_submit (N : Nat) (a : App) (p : Bool) (wr rc : UVec2) (t : Int) :
    (commands (drawFrame N a ⟨none, p, wr, rc, t⟩).events = [] ∧
      submitCount (drawFrame N a ⟨none, p, wr, rc, t⟩).events = 0 ∧
      presentCount (drawFrame N a ⟨none, p, wr, rc, t⟩).events = 0 ∧
      (drawFrame N a ⟨none, p, wr, rc, t⟩).app.bufIndex = a.bufIndex ∧
      (drawFrame N a ⟨none, p, wr, rc, t⟩).app.params = a.params ∧
      (drawFrame N a ⟨none, p, wr, rc, t⟩).app.constantBuf = a.constantBuf ∧
      ((drawFrame N a ⟨none, p, wr, rc, t⟩).halted = true ↔
        (wr ≠ ⟨0, 0⟩ ∧ a.resolution ≠ rc))) ∧
    (∀ img : SwapchainImage,
      submitCount (drawFrame N a ⟨some img, p, wr, rc, t⟩).events = 1 ∧
      presentCount (drawFrame N a ⟨some img, p, wr, rc, t⟩).events = 1) := by
  constructor
  · simp only [drawFrame, renderPart_skipped]
    split
    · rename_i h
      refine ⟨rfl, rfl, rfl, rfl, rfl, rfl, ?_⟩
      simp [Frame.emit, ETNA_VERIFY, h]
    · rename_i h
      refine ⟨rfl, rfl, rfl, rfl, rfl, rfl, ?_⟩
      simp [h]
  · intro img
    simp only [drawFrame, renderPart_acquired]
    cases p
    · simp only [Bool.false_eq_true, if_false]
      split
      · exact ⟨rfl, rfl⟩
      · exact ⟨rfl, rfl⟩
    · exact ⟨rfl, rfl⟩

/-- C8: in a frame that acquired an image, the command buffer that is submitted is
the one recorded in the frame; the layout states it requests for the backbuffer
are transfer-write, color attachment and present-src, in this order and nothing
else; and the sequence closes with the end of the command buffer, so the
present-src request is the last state request before end and submit. -/
theorem backbuffer_layout_sequence (N : Nat) (a : App) (img : SwapchainImage) (p : Bool)
    (wr rc : UVec2) (t : Int) :
    submittedBuffers [] (drawFrame N a ⟨some img, p, wr, rc, t⟩).events
        = [commands (drawFrame N a ⟨some img, p, wr, rc, t⟩).events] ∧
      layoutRequests (ImageRef.swapchain img.backbuffer)
          (commands (drawFrame N a ⟨some img, p, wr, rc, t⟩).events)
        = [ImageLayout.transferDstOptimal, ImageLayout.colorAttachmentOptimal,
           ImageLayout.presentSrcKHR] ∧
      (commands (drawFrame N a ⟨some img, p, wr, rc, t⟩).events).getLast? = some Cmd.endCmd := by
  simp only [drawFrame, renderPart_acquired]
  cases p
  · simp only [Bool.false_eq_true, if_false]
    split <;> simp [Frame.emit, submittedBuffers, commands, layoutRequests, renderTargetColorLayout]
  · simp [Frame.emit, submittedBuffers, commands, layoutRequests, renderTargetColorLayout]

/-- C9: in a frame that acquired an image, the recorded commands contain exactly one
draw, `draw(3, 1, 0, 0)`.  When it is recorded the compute pipeline has been bound,
the graphics pipeline is bound together with a descriptor set whose bindings 0, 1, 2
are the intermediate image, the static input texture and the uniform buffer of the
frame's slot, no vertex buffer and no index buffer is bound, the render target is
the backbuffer, and present-src has not been requested yet; the present-src request
is among the recorded commands. -/
theorem single_fullscreen_draw (N : Nat) (a : App) (img : SwapchainImage) (p : Bool)
    (wr rc : UVec2) (t : Int) :
    drawCalls Bound.init (commands (drawFrame N a ⟨some img, p, wr, rc, t⟩).events) =
        [(⟨some Pipeline.computePipeline,
           some (computeDescriptorSet a.bufIndex),
           some Pipeline.graphicsPipeline,
           some ⟨Program.image,
             [⟨0, Resource.image ImageRef.bufImage SamplerId.sampler ImageLayout.general⟩,
              ⟨1, Resource.image ImageRef.image SamplerId.graphicsSampler
                ImageLayout.shaderReadOnlyOptimal⟩,
              ⟨2, Resource.buffer a.bufIndex⟩]⟩,
           false, false,
           some [(ImageRef.swapchain img.backbuffer, img.view)],
           []⟩,
          Cmd.draw 3 1 0 0)] ∧
      Cmd.setState (ImageRef.swapchain img.backbuffer) PipelineStage.colorAttachmentOutput
          Access.noAccess ImageLayout.presentSrcKHR
        ∈ commands (drawFrame N a ⟨some img, p, wr, rc, t⟩).events := by
  simp only [drawFrame, renderPart_acquired]
  cases p
  · simp only [Bool.false_eq_true, if_false]
    split <;>
      simp [Frame.emit, commands, drawCalls, Bound.step, Bound.init, graphicsSet]
  · simp [Frame.emit, commands, drawCalls, Bound.step, Bound.init, graphicsSet]

/-- C10: in a frame that acquired an image, starting from `bufIndex = b`, the uses of
the uniform buffer before the assignment to `bufIndex` are binding 1 of the compute
descriptor set, the host write and binding 2 of the graphics descriptor set, all
three on slot `b`; there is exactly one assignment to `bufIndex`, to
`(b + 1) % FRAMES_IN_FLIGHT`, and no use of a uniform buffer after it; the descriptor
sets bound in the command buffer reference slot `b` only, which is the slot written. -/
theorem frame_uses_one_slot (N : Nat) (a : App) (img : SwapchainImage) (p : Bool)
    (wr rc : UVec2) (t : Int) :
    bufferUses ((drawFrame N a ⟨some img, p, wr, rc, t⟩).events.takeWhile
          (fun ev => !ev.isSetBufIndex))
        = [BufferUse.binding Program.texture 1 a.bufIndex, BufferUse.write a.bufIndex,
           BufferUse.binding Program.image 2 a.bufIndex] ∧
      bufferUses ((drawFrame N a ⟨some img, p, wr, rc, t⟩).events.dropWhile
          (fun ev => !ev.isSetBufIndex)) = [] ∧
      (drawFrame N a ⟨some img, p, wr, rc, t⟩).events.filter Event.isSetBufIndex
        = [Event.setBufIndex ((a.bufIndex + 1) % N)] ∧
      (drawFrame N a ⟨some img, p, wr, rc, t⟩).app.bufIndex = (a.bufIndex + 1) % N ∧
      referencedSlots (commands (drawFrame N a ⟨some img, p, wr, rc, t⟩).events)
        = [a.bufIndex, a.bufIndex] ∧
      writtenSlots (drawFrame N a ⟨some img, p, wr, rc, t⟩).events = [a.bufIndex] := by
  simp only [drawFrame, renderPart_acquired]
  cases p
  · simp only [Bool.false_eq_true, if_false]
    split <;> exact ⟨rfl, rfl, rfl, rfl, rfl, rfl⟩
  · exact ⟨rfl, rfl, rfl, rfl, rfl, rfl⟩

/-! ## Runs -/

/-- One more invocation adds one submission when it acquires an image. -/
theorem submissionsBefore_succ (N : Nat) (a : App) (env : Nat → FrameEnv) (i : Nat) :
    submissionsBefore N a env (i + 1) =
      submissionsBefore N a env i + if (env i).acquired.isSome then 1 else 0 := by
  simp only [submissionsBefore, frameAt, frame_submitCount]

/-- The slot index before the next invocation. -/
theorem bufIndexAt_succ (N : Nat) (a : App) (env : Nat → FrameEnv) (i : Nat) :
    (appAt N a env (i + 1)).bufIndex =
      if (env i).acquired.isSome then ((appAt N a env i).bufIndex + 1) % N
      else (appAt N a env i).bufIndex := by
  simp only [appAt, frame_bufIndex]

/-- Each invocation submits at most once. -/
theorem submissionsBefore_add_le (N : Nat) (a : App) (env : Nat → FrameEnv) (j d : Nat) :
    submissionsBefore N a env (j + d) ≤ submissionsBefore N a env j + d := by
  induction d with
  | zero => simp
  | succ d ih =>
    rw [← Nat.add_assoc, submissionsBefore_succ]
    split <;> omega

/-- The submission count grows along the run. -/
theorem submissionsBefore_mono (N : Nat) (a : App) (env : Nat → FrameEnv) {j i : Nat}
    (h : j ≤ i) : submissionsBefore N a env j ≤ submissionsBefore N a env i := by
  induction i with
  | zero =>
    have : j = 0 := by omega
    subst this
    exact Nat.le_refl _
  | succ i ih =>
    rcases Nat.eq_or_lt_of_le h with h1 | h1
    · subst h1
      exact Nat.le_refl _
    · have := ih (by omega)
      rw [submissionsBefore_succ]
      omega

/-- The slot index before invocation `i` is determined by the number of submissions
made so far. -/
theorem bufIndexAt_eq (N : Nat) (a : App) (env : Nat → FrameEnv) (i : Nat) :
    (appAt N a env i).bufIndex =
      if submissionsBefore N a env i = 0 then a.bufIndex
      else (a.bufIndex + submissionsBefore N a env i) % N := by
  induction i with
  | zero => simp [appAt, submissionsBefore]
  | succ i ih =>
    rw [bufIndexAt_succ, submissionsBefore_succ, ih]
    by_cases hacq : (env i).acquired.isSome = true
    · simp only [hacq, if_true]
      by_cases hz : submissionsBefore N a env i = 0
      · simp [hz]
      · simp only [hz, if_false, Nat.add_eq_zero, one_ne_zero, and_false]
        rw [Nat.mod_add_mod, Nat.add_assoc]
    · simp [hacq]

/-- An invocation that takes place is preceded by invocations that took place. -/
theorem executed_of_le (N : Nat) (a : App) (env : Nat → FrameEnv) {j i : Nat}
    (h : j ≤ i) (hi : executed N a env i = true) : executed N a env j = true := by
  induction i with
  | zero =>
    have : j = 0 := by omega
    subst this
    exact hi
  | succ i ih =>
    rcases Nat.eq_or_lt_of_le h with h1 | h1
    · subst h1
      exact hi
    · simp only [executed, Bool.and_eq_true] at hi
      exact ih (by omega) hi.1

/-- Two invocations that both acquire an image and start from the same slot index
are at least `N` submissions apart. -/
theorem same_slot_gap (N : Nat) (a : App) (env : Nat → FrameEnv) {j i : Nat} (hji : j < i)
    (hj : (env j).acquired.isSome = true)
    (hslot : (appAt N a env j).bufIndex = (appAt N a env i).bufIndex) :
    submissionsBefore N a env j + N ≤ submissionsBefore N a env i := by
  have hstep : submissionsBefore N a env j + 1 ≤ submissionsBefore N a env i := by
    have h1 := submissionsBefore_mono N a env (show j + 1 ≤ i from hji)
    rw [submissionsBefore_succ] at h1
    simpa [hj] using h1
  have hi0 : submissionsBefore N a env i ≠ 0 := by omega
  rw [bufIndexAt_eq N a env j, bufIndexAt_eq N a env i] at hslot
  simp only [hi0, if_false] at hslot
  have hmod : Nat.ModEq N (a.bufIndex + submissionsBefore N a env j)
      (a.bufIndex + submissionsBefore N a env i) := by
    unfold Nat.ModEq
    by_cases hz : submissionsBefore N a env j = 0
    · simp only [hz, if_true] at hslot
      rw [hz, Nat.add_zero]
      conv_lhs => rw [hslot]
      rw [Nat.mod_mod, ← hslot]
    · simp only [hz, if_false] at hslot
      exact hslot
  have hdvd : N ∣ submissionsBefore N a env i - submissionsBefore N a env j :=
    (Nat.modEq_iff_dvd' (by omega)).1 (Nat.ModEq.add_left_cancel' _ hmod)
  have := Nat.le_of_dvd (by omega) hdvd
  omega

/-- What the GPU has finished stays finished. -/
theorem done_le_of_le (done : Nat → Nat) (hmono : ∀ i, done i ≤ done (i + 1)) {k i : Nat}
    (h : k ≤ i) : done k ≤ done i := by
  induction i with
  | zero =>
    have : k = 0 := by omega
    subst this
    exact Nat.le_refl _
  | succ i ih =>
    rcases Nat.eq_or_lt_of_le h with h1 | h1
    · subst h1
      exact Nat.le_refl _
    · exact Nat.le_trans (ih (by omega)) (hmono i)

/-- In a run whose first `n` invocations all acquire an image, invocation `k ≤ n`
is preceded by exactly `k` submissions. -/
theorem submissionsBefore_all_acquired (N : Nat) (a : App) (env : Nat → FrameEnv) (n : Nat)
    (hacq : ∀ k, k < n → (env k).acquired.isSome = true) (k : Nat) (hk : k ≤ n) :
    submissionsBefore N a env k = k := by
  induction k with
  | zero => rfl
  | succ k ih =>
    rw [submissionsBefore_succ, ih (by omega), hacq k (by omega)]
    simp

/-- C2: take a run of `n` invocations of `drawFrame` with arbitrary answers of the
collaborators, and let `done i` be the number of submissions, in submission order,
that the GPU has finished when `commandManager->acquireNext()` returns in
invocation `i` (the GPU finishes submissions in submission order, so these are the
first `done i`; what is finished stays finished).  Suppose that in every invocation
`i` that takes place `acquireNext()` returns only after the submission of every
earlier invocation `j` with `j % N = i % N` is finished.  Then whenever an
invocation `i` writes a slot of `constantBuf`, every command buffer submitted by an
earlier invocation `j` whose descriptor sets reference that slot is already
finished: its position in submission order is below `done i`. -/
theorem uniform_slot_not_overwritten_in_flight (N : Nat) (a : App) (env : Nat → FrameEnv)
    (n : Nat) (done : Nat → Nat)
    (hmono : ∀ i, done i ≤ done (i + 1))
    (hwait : ∀ i, i < n → ∀ j, j < i → executed N a env i = true → j % N = i % N →
      0 < submitCount (frameAt N a env j).events → submissionsBefore N a env j < done i)
    (i : Nat) (hi : i < n) (hexec : executed N a env i = true)
    (slot : Nat) (hwrite : slot ∈ writtenSlots (frameAt N a env i).events)
    (j : Nat) (hji : j < i) (buf : List Cmd)
    (hbuf : buf ∈ submittedBuffers [] (frameAt N a env j).events)
    (href : slot ∈ referencedSlots buf) :
    submissionsBefore N a env j < done i := by
  -- invocation `i` acquired an image and writes the slot it started with
  have hacqi : (env i).acquired.isSome = true := by
    by_contra hc
    simp [frameAt, frame_writtenSlots, hc] at hwrite
  have hsi : slot = (appAt N a env i).bufIndex := by
    simpa [frameAt, frame_writtenSlots, hacqi] using hwrite
  -- invocation `j` acquired an image and its command buffer references the slot it started with
  have hacqj : (env j).acquired.isSome = true := by
    by_contra hc
    simp [frameAt, frame_submittedBuffers, hc] at hbuf
  have hsj : slot = (appAt N a env j).bufIndex := by
    simp only [frameAt, frame_submittedBuffers, hacqj, if_true, List.mem_singleton] at hbuf
    subst hbuf
    simpa [frame_referencedSlots, hacqj] using href
  have hgap := same_slot_gap N a env hji hacqj (hsj.symm.trans hsi)
  have hlip := submissionsBefore_add_le N a env j (i - j)
  rw [show j + (i - j) = i by omega] at hlip
  rcases Nat.eq_zero_or_pos N with hN | hN
  · -- with no slot to return to, no slot is ever used twice
    exfalso
    subst hN
    have hbi := bufIndexAt_eq 0 a env i
    have hbj := bufIndexAt_eq 0 a env j
    have hstep := submissionsBefore_mono 0 a env (show j + 1 ≤ i from hji)
    rw [submissionsBefore_succ] at hstep
    simp only [hacqj, if_true] at hstep
    rw [← hsi] at hbi
    rw [← hsj] at hbj
    simp only [Nat.mod_zero] at hbi hbj
    split at hbi <;> split at hbj <;> omega
  · -- the last invocation up to `i` in the residue class of `j` waited for `j`
    have hlt : (i - j) % N < N := Nat.mod_lt _ hN
    have hdm := Nat.div_add_mod (i - j) N
    generalize hq : (i - j) / N = q at hdm
    have hi' : i - (i - j) % N = j + N * q := by omega
    have hcong : j % N = (i - (i - j) % N) % N := by
      rw [hi', Nat.add_mul_mod_self_left]
    have hsub : 0 < submitCount (frameAt N a env j).events := by
      simp [frameAt, frame_submitCount, hacqj]
    have hw := hwait (i - (i - j) % N) (by omega) j (by omega)
      (executed_of_le N a env (by omega) hexec) hcong hsub
    exact Nat.lt_of_lt_of_le hw (done_le_of_le done hmono (by omega))

/-- C2 at a concrete run: two frames in flight, the window minimised during
invocation 1, the GPU one invocation behind.  Invocation 3 writes slot 0 again,
which the command buffer of invocation 0 references, and that submission is
finished by then. -/
theorem uniform_slot_not_overwritten_in_flight_witness :
    0 ∈ writtenSlots (frameAt 2 sampleApp sampleRun 3).events ∧
      0 ∈ referencedSlots (commands (frameAt 2 sampleApp sampleRun 0).events) ∧
      submissionsBefore 2 sampleApp sampleRun 0 < sampleDone 3 :=
  ⟨by decide, by decide,
    uniform_slot_not_overwritten_in_flight 2 sampleApp sampleRun 6 sampleDone
      (fun i => submissionsBefore_mono 2 sampleApp sampleRun (by omega))
      (by decide)
      3 (by decide) (by decide) 0 (by decide) 0 (by decide)
      (commands (frameAt 2 sampleApp sampleRun 0).events) (by decide) (by decide)⟩

/-- C4: in a run of `n` invocations of `drawFrame` with `N ≥ 1` frames in flight that
starts from `bufIndex = 0`, in which every invocation takes place and acquires an
image, exactly `n` command buffers are submitted, one per invocation, and invocation
`k` writes slot `k % N` and binds descriptor sets that reference slot `k % N`; for
`N = 2` and `n = 10` the slots written are 0, 1, 0, 1, 0, 1, 0, 1, 0, 1. -/
theorem steady_run_slot_sequence (N n : Nat) (a : App) (env : Nat → FrameEnv)
    (_hN : 1 ≤ N) (h0 : a.bufIndex = 0)
    (hacq : ∀ k, k < n → (env k).acquired.isSome = true)
    (_hexec : ∀ k, k < n → executed N a env k = true) :
    submissionsBefore N a env n = n ∧
      (∀ k, k < n →
        submitCount (frameAt N a env k).events = 1 ∧
        writtenSlots (frameAt N a env k).events = [k % N] ∧
        referencedSlots (commands (frameAt N a env k).events) = [k % N, k % N]) ∧
      (N = 2 → n = 10 →
        (List.range n).map (fun k => writtenSlots (frameAt N a env k).events)
          = [[0], [1], [0], [1], [0], [1], [0], [1], [0], [1]]) := by
  have hslot : ∀ k, k < n → (appAt N a env k).bufIndex = k % N := by
    intro k hk
    rw [bufIndexAt_eq, submissionsBefore_all_acquired N a env n hacq k (by omega), h0]
    by_cases hz : k = 0
    · simp [hz]
    · simp [hz]
  have hframes : ∀ k, k < n →
      submitCount (frameAt N a env k).events = 1 ∧
      writtenSlots (frameAt N a env k).events = [k % N] ∧
      referencedSlots (commands (frameAt N a env k).events) = [k % N, k % N] := by
    intro k hk
    simp [frameAt, frame_submitCount, frame_writtenSlots, frame_referencedSlots, hacq k hk,
      hslot k hk]
  refine ⟨submissionsBefore_all_acquired N a env n hacq n (Nat.le_refl n), hframes, ?_⟩
  intro hN2 hn10
  subst hN2
  subst hn10
  have hmap : (List.range 10).map (fun k => writtenSlots (frameAt 2 a env k).events)
      = (List.range 10).map (fun k => [k % 2]) :=
    List.map_congr_left (fun k hk => (hframes k (List.mem_range.1 hk)).2.1)
  rw [hmap]
  rfl

/-- C4 at a concrete run: two frames in flight, ten invocations that all acquire
and present an image, starting from slot 0. -/
theorem steady_run_slot_sequence_witness :
    submissionsBefore 2 sampleApp steadyRun 10 = 10 ∧
      (List.range 10).map (fun k => writtenSlots (frameAt 2 sampleApp steadyRun k).events)
        = [[0], [1], [0], [1], [0], [1], [0], [1], [0], [1]] :=
  ⟨(steady_run_slot_sequence 2 10 sampleApp steadyRun (by decide) rfl
      (fun _ _ => rfl) (by decide)).1,
    (steady_run_slot_sequence 2 10 sampleApp steadyRun (by decide) rfl
      (fun _ _ => rfl) (by decide)).2.2 rfl rfl⟩

end InflightFrames
